import Mathlib

/-!
Shallow embedding of the OTP verification / resend controller and the
client-side rate-limiting guard of the `bci_e_book_library_with_supabase`
repository, together with proofs about the behaviours its specification
describes.

Embedded source files:
* `src/lib/rateLimitUtils.ts` — `checkRateLimit`, the persisted
  `RateLimitData` record and its failure semantics.
* `src/app/otp-verification.tsx` — `isValidOTP`, `handleVerify`,
  `handleResend`, the resend-cooldown timer effect.

Conventions: timestamps are milliseconds as `Nat` (the JavaScript
`Date.now()` value); persisted storage is passed explicitly as a value and
the new value is returned; asynchronous remote results are inputs to the
functions; user-visible alerts and navigation are recorded in an effects
record.
-/

set_option autoImplicit false

/-- String helper: does the character list `s` start with the pattern `p`?
Mirrors the positional test underlying JavaScript `String.prototype.includes`. -/
def startsWithL : List Char → List Char → Bool
  | _, [] => true
  | [], _ :: _ => false
  | a :: s, b :: p => a == b && startsWithL s p

/-- String helper: does `p` occur as a contiguous substring of `s`?
Mirrors JavaScript `s.includes(p)`. -/
def containsSub : List Char → List Char → Bool
  | s, p =>
    startsWithL s p ||
      match s with
      | [] => false
      | _ :: t => containsSub t p

/-- JavaScript `s.includes(p)` on Lean strings. -/
def strIncludes (s p : String) : Bool :=
  containsSub s.data p.data

/-- JavaScript `s.toLowerCase()` restricted to the ASCII case mapping, which
is all the error texts classified by the controller use. -/
def toLowerStr (s : String) : String :=
  String.mk (s.data.map Char.toLower)

/-!
## OTPCodeValidator

Source: `src/app/otp-verification.tsx`, `isValidOTP`:
`return /^\d{6}$/.test(otp);` — the regex accepts exactly the strings made of
six ASCII decimal digits (`\d` is `[0-9]`; `^`/`$` anchor both ends, and
without the `m` flag `$` matches only at the very end of the input).
-/

/-- Is `c` an ASCII decimal digit, i.e. matched by the regex class `\d`? -/
def isAsciiDigit (c : Char) : Bool :=
  '0' ≤ c && c ≤ '9'

/-- Embedding of `isValidOTP` from `src/app/otp-verification.tsx`:
the semantics of `/^\d{6}$/.test(otp)`. -/
def isValidOTP (otp : String) : Bool :=
  otp.data.length == 6 && otp.data.all isAsciiDigit

/-- Specification-side predicate, written from the words of the claim:
the code consists of exactly six ASCII decimal digits, with no other
characters (hence no leading or trailing whitespace). -/
def SixAsciiDigits (code : String) : Prop :=
  code.data.length = 6 ∧ ∀ c ∈ code.data, '0' ≤ c ∧ c ≤ '9'

/-!
## RateLimitGuard

Source: `src/lib/rateLimitUtils.ts`. The persisted record and the
`checkRateLimit` algorithm. `BLOCK_DURATION = 5 * 60 * 1000` ms,
`MAX_REQUESTS_PER_MINUTE = 3`.
-/

/-- The persisted `RateLimitData` record of `src/lib/rateLimitUtils.ts`. -/
structure RateLimitData where
  lastRequest : Nat
  requestCount : Nat
  blockedUntil : Option Nat
deriving DecidableEq

/-- The `{ allowed, waitTime? }` result of `checkRateLimit`. -/
structure CheckResult where
  allowed : Bool
  waitTime : Option Nat
deriving DecidableEq

/-- The constant `MAX_REQUESTS_PER_MINUTE` of `src/lib/rateLimitUtils.ts`. -/
def MAX_REQUESTS_PER_MINUTE : Nat := 3

/-- The constant `BLOCK_DURATION` (5 minutes in milliseconds). -/
def BLOCK_DURATION : Nat := 5 * 60 * 1000

/-- JavaScript `Math.ceil(n / 1000)` for a natural number of milliseconds. -/
def ceilSeconds (n : Nat) : Nat :=
  (n + 999) / 1000

/-- Truthiness test `rateLimitData.blockedUntil && now < rateLimitData.blockedUntil`
from line 31 of `src/lib/rateLimitUtils.ts` (an absent or zero `blockedUntil`
is falsy in JavaScript). -/
def activeBlock (d : RateLimitData) (now : Nat) : Bool :=
  match d.blockedUntil with
  | none => false
  | some b => b != 0 && now < b

/-- Core of `checkRateLimit` from `src/lib/rateLimitUtils.ts` (the body of the
`try` block, after the stored value has been read and parsed): given the
parsed record (or `none` when absent) and the current time, returns the
result and the record that is written back (the stored record itself on the
paths that perform no write). Note the write on the allowed paths drops the
`blockedUntil` field, since the object passed to `JSON.stringify` has only
`lastRequest` and `requestCount`. -/
def checkRateLimitCore (stored : Option RateLimitData) (now : Nat) :
    CheckResult × Option RateLimitData :=
  match stored with
  | none =>
    -- First request
    (⟨true, none⟩, some ⟨now, 1, none⟩)
  | some d =>
    if activeBlock d now then
      -- Currently blocked: return without writing
      (⟨false, some (ceilSeconds ((d.blockedUntil.getD 0) - now))⟩, some d)
    else if now - d.lastRequest > 60 * 1000 then
      -- Reset if more than 1 minute has passed
      (⟨true, none⟩, some ⟨now, 1, none⟩)
    else if d.requestCount < MAX_REQUESTS_PER_MINUTE then
      -- Within rate limit
      (⟨true, none⟩, some ⟨now, d.requestCount + 1, none⟩)
    else
      -- Rate limit exceeded, block for 5 minutes
      (⟨false, some (ceilSeconds BLOCK_DURATION)⟩,
        some ⟨now, d.requestCount + 1, some (now + BLOCK_DURATION)⟩)

/-- What the persistent store holds for an action: nothing, an unparseable
string (on which `JSON.parse` throws), or a string parsing to a record. -/
inductive StoredValue where
  | corrupt : StoredValue
  | good : RateLimitData → StoredValue
deriving DecidableEq

/-- Full embedding of `checkRateLimit` including the `try`/`catch` failure
semantics: `readFails` models `AsyncStorage.getItem` throwing; a stored
`corrupt` value makes `JSON.parse` throw. Either exception is caught, logged
(third component) and answered with `allowed: true`, leaving the store
untouched; no exception escapes (the function is total). -/
def checkRateLimit (readFails : Bool) (stored : Option StoredValue) (now : Nat) :
    CheckResult × Option StoredValue × Bool :=
  if readFails then
    (⟨true, none⟩, stored, true)
  else
    match stored with
    | some .corrupt => (⟨true, none⟩, stored, true)
    | none =>
      let r := checkRateLimitCore none now
      (r.1, r.2.map .good, false)
    | some (.good d) =>
      let r := checkRateLimitCore (some d) now
      (r.1, r.2.map .good, false)

/-- Folding a sequence of `checkRateLimitCore` calls (one per timestamp in the
list, in order) over the store, starting from a given store value. -/
def runChecks (stored : Option RateLimitData) : List Nat → Option RateLimitData
  | [] => stored
  | t :: ts => runChecks (checkRateLimitCore stored t).2 ts

/-- Folding a sequence of `checkRateLimitCore` calls while also collecting the
result returned to the caller of each call, in order. -/
def checkSeq : Option RateLimitData → List Nat → List CheckResult × Option RateLimitData
  | st, [] => ([], st)
  | st, t :: ts =>
    let r := checkRateLimitCore st t
    let rest := checkSeq r.2 ts
    (r.1 :: rest.1, rest.2)

/-- Is the stored record (when present) under an active block at `now`? -/
def storedBlocked (stored : Option RateLimitData) (now : Nat) : Bool :=
  match stored with
  | none => false
  | some d => activeBlock d now

/-- Bounds check used by the `requestCount` invariant: any present record has
a count between 1 and 4. -/
def countBounds : Option RateLimitData → Bool
  | none => true
  | some d => 1 ≤ d.requestCount && d.requestCount ≤ 4

/-- Strengthened invariant carried through the induction: a present record
has a positive count, and a count above 3 only in the freshly-blocked shape
where `requestCount = 4` and `blockedUntil = lastRequest + BLOCK_DURATION`. -/
def rlInv : Option RateLimitData → Prop
  | none => True
  | some d =>
    1 ≤ d.requestCount ∧
      (d.requestCount ≤ 3 ∨
        (d.requestCount = 4 ∧ d.blockedUntil = some (d.lastRequest + BLOCK_DURATION)))

/-!
## VerificationController — verify

Source: `src/app/otp-verification.tsx`, `handleVerify`. The `type` state
loaded from the pending-verification store is `register` or `reset`; the
remote discriminator passed to `supabase.auth.verifyOtp` is `signup` when
the type equals `register` and `recovery` otherwise.
-/

/-- The `type` field of the stored OTP data: which flow the pending
verification belongs to. -/
inductive FlowType where
  | register : FlowType
  | reset : FlowType
deriving DecidableEq

/-- The `type` value passed to `supabase.auth.verifyOtp`. -/
inductive VerificationType where
  | signup : VerificationType
  | recovery : VerificationType
deriving DecidableEq

/-- The discriminator mapping of line 114 of `src/app/otp-verification.tsx`:
`const verificationType = (ternary on whether type equals register) signup / recovery`. -/
def flowDiscriminator : FlowType → VerificationType
  | .register => .signup
  | .reset => .recovery

/-- Result of the remote `supabase.auth.verifyOtp` call: the error message
when `error` is non-null, and the truthiness of `data?.user` and
`data?.session`. -/
structure VerifyOtpResult where
  errMsg : Option String
  hasUser : Bool
  hasSession : Bool
deriving DecidableEq

/-- Result of the follow-up `supabase.auth.getSession` call: the error when
`sessionError` is non-null, and the truthiness of `sessionData.session`. -/
structure SessionResult where
  errMsg : Option String
  hasSession : Bool
deriving DecidableEq

/-- Terminal user-visible outcome of one `handleVerify` run, one constructor
per `Alert.alert` site in the source. -/
inductive VerifyOutcome where
  | invalidFormat : VerifyOutcome
  | expiredCode : VerifyOutcome
  | invalidCode : VerifyOutcome
  | rateLimited : VerifyOutcome
  | verificationFailed : String → VerifyOutcome
  | noUserOrSession : VerifyOutcome
  | sessionMissing : VerifyOutcome
  | success : VerifyOutcome
deriving DecidableEq

/-- Navigation target of a `handleVerify` run. -/
inductive Route where
  | login : Route
  | tabs : Route
deriving DecidableEq

/-- Observable effects of one `handleVerify` run: whether the remote
`verifyOtp` call was made and with which discriminator, whether the
follow-up `getSession` query ran, the terminal outcome (none when the run
returned silently), the navigation performed, and whether the stored
pending-verification data was cleared via `clearOTPData`. -/
structure VerifyEffects where
  remoteCalled : Bool
  usedType : Option VerificationType
  sessionQueried : Bool
  outcome : Option VerifyOutcome
  route : Option Route
  otpCleared : Bool
deriving DecidableEq

/-- The empty effects of a silently-returning run. -/
def noVerifyEffects : VerifyEffects :=
  ⟨false, none, false, none, none, false⟩

/-- Error classification of lines 136–157 of `src/app/otp-verification.tsx`:
case-insensitive substring matching on the remote error message, in source
order (`expired` first, then `invalid`/`token`, then `rate limit`). -/
def classifyVerifyError (msg : String) : VerifyOutcome :=
  let m := toLowerStr msg
  if strIncludes m "expired" then .expiredCode
  else if strIncludes m "invalid" || strIncludes m "token" then .invalidCode
  else if strIncludes m "rate limit" then .rateLimited
  else .verificationFailed msg

/-- Embedding of `handleVerify` from `src/app/otp-verification.tsx`.
`verifying` is the single-flight flag read at entry (set synchronously
before the first `await`, cleared in `finally`); `flow` is the loaded
`type`; `remote` and `sess` are the responses of the two awaited remote
calls. Mirrors the source control flow branch for branch. -/
def handleVerify (verifying : Bool) (flow : FlowType) (otp : String)
    (remote : VerifyOtpResult) (sess : SessionResult) : VerifyEffects :=
  if verifying then noVerifyEffects
  else if !isValidOTP otp then
    ⟨false, none, false, some .invalidFormat, none, false⟩
  else
    let vt := flowDiscriminator flow
    match remote.errMsg with
    | some msg =>
      ⟨true, some vt, false, some (classifyVerifyError msg), none, false⟩
    | none =>
      if !remote.hasUser && !remote.hasSession then
        ⟨true, some vt, false, some .noUserOrSession, none, false⟩
      else
        match sess.errMsg with
        | some _ => ⟨true, some vt, true, some .sessionMissing, some .login, false⟩
        | none =>
          if !sess.hasSession then
            ⟨true, some vt, true, some .sessionMissing, some .login, false⟩
          else
            ⟨true, some vt, true, some .success, some .tabs, true⟩

/-- Count of remote `verifyOtp` calls made by a run. -/
def remoteCallCount (e : VerifyEffects) : Nat :=
  if e.remoteCalled then 1 else 0

/-- Count of terminal outcomes surfaced by a run. -/
def outcomeCount (e : VerifyEffects) : Nat :=
  if e.outcome.isSome then 1 else 0

/-!
## VerificationController — resend, and the cooldown timer

Source: `src/app/otp-verification.tsx`, `handleResend` (lines 231–305) and
the `resendTimer` countdown effect (lines 77–83). `handleResend` is gated by
the `resendDisabled` flag alone; it dispatches on the flow to
`supabase.auth.resend({type: signup})` or
`supabase.auth.resetPasswordForEmail`, classifies the error text, and arms
the cooldown timer to 300 s on a remote rate-limit error or 30 s on success.
-/

/-- Which remote operation `handleResend` dispatches to. -/
inductive ResendOp where
  | resendSignup : ResendOp
  | resetPasswordForEmail : ResendOp
deriving DecidableEq

/-- The dispatch of lines 241–254 of `src/app/otp-verification.tsx`: the
registration flow calls `supabase.auth.resend` with the signup type, the
reset flow calls `supabase.auth.resetPasswordForEmail`. -/
def resendDispatch : FlowType → ResendOp
  | .register => .resendSignup
  | .reset => .resetPasswordForEmail

/-- Terminal user-visible outcome of one `handleResend` run, one constructor
per `Alert.alert` site. -/
inductive ResendOutcome where
  | rateLimited : ResendOutcome
  | userNotFound : ResendOutcome
  | resendFailed : String → ResendOutcome
  | codeSent : ResendOutcome
deriving DecidableEq

/-- Observable effects of one `handleResend` run. -/
structure ResendEffects where
  remoteCalled : Bool
  op : Option ResendOp
  outcome : Option ResendOutcome
deriving DecidableEq

/-- The cooldown state of the screen: the `resendDisabled` flag and the
`resendTimer` countdown value in seconds. -/
structure CooldownState where
  resendDisabled : Bool
  resendTimer : Nat
deriving DecidableEq

/-- Embedding of `handleResend` from `src/app/otp-verification.tsx`: given
the cooldown state, the flow, and the error (if any) returned by whichever
remote call the flow dispatches to, returns the run effects and the new
cooldown state. Note the gate is only the `resendDisabled` flag; there is no
call to `checkRateLimit` anywhere in the function (nor anywhere else in the
application). -/
def handleResend (s : CooldownState) (flow : FlowType) (remoteErr : Option String) :
    ResendEffects × CooldownState :=
  if s.resendDisabled then (⟨false, none, none⟩, s)
  else
    let op : ResendOp := resendDispatch flow
    match remoteErr with
    | some msg =>
      let m := toLowerStr msg
      if strIncludes m "rate limit" || strIncludes m "too many requests" then
        -- Set a longer timer for rate limiting (300 s)
        (⟨true, some op, some .rateLimited⟩, ⟨true, 300⟩)
      else if strIncludes m "user not found" then
        (⟨true, some op, some .userNotFound⟩, s)
      else
        (⟨true, some op, some (.resendFailed msg)⟩, s)
    | none =>
      -- Start resend cooldown timer (30 seconds for normal operation)
      (⟨true, some op, some .codeSent⟩, ⟨true, 30⟩)

/-- One second of the countdown effect of lines 77–83: while the timer is
positive it decrements once per second; when it reaches zero the effect sets
`resendDisabled` to false. -/
def tickSecond (s : CooldownState) : CooldownState :=
  if s.resendTimer > 0 then
    let t := s.resendTimer - 1
    if t = 0 then ⟨false, 0⟩ else ⟨s.resendDisabled, t⟩
  else
    ⟨false, 0⟩

/-- Elapse `k` seconds of the countdown effect. -/
def elapse (s : CooldownState) : Nat → CooldownState
  | 0 => s
  | k + 1 => elapse (tickSecond s) k

/-- Scenario of claim C1 run against the code: starting from the initial
screen state, four `handleResend` calls 3 seconds apart (all within 10
seconds), the remote succeeding whenever it is reached. Returns the list of
per-call effects. -/
def resendScenario : List ResendEffects :=
  let s0 : CooldownState := ⟨false, 0⟩
  let r1 := handleResend s0 .register none
  let s1 := elapse r1.2 3
  let r2 := handleResend s1 .register none
  let s2 := elapse r2.2 3
  let r3 := handleResend s2 .register none
  let s3 := elapse r3.2 3
  let r4 := handleResend s3 .register none
  [r1.1, r2.1, r3.1, r4.1]

/-- Number of calls of a scenario that reached the remote call path. -/
def remoteReached (l : List ResendEffects) : Nat :=
  (l.filter (fun e => e.remoteCalled)).length


/-!
## Branch lemmas for `checkRateLimitCore`
-/

/-- Absent record: the first request creates a fresh record and is allowed. -/
theorem core_first (now : Nat) :
    checkRateLimitCore none now = (⟨true, none⟩, some ⟨now, 1, none⟩) := rfl

/-- No active block, window not elapsed, count below the ceiling: the call is
allowed and the count incremented. -/
theorem core_allowed_inc (d : RateLimitData) (now : Nat)
    (hb : activeBlock d now = false)
    (hw : ¬ now - d.lastRequest > 60 * 1000)
    (hc : d.requestCount < MAX_REQUESTS_PER_MINUTE) :
    checkRateLimitCore (some d) now = (⟨true, none⟩, some ⟨now, d.requestCount + 1, none⟩) := by
  simp [checkRateLimitCore, hb, hw, hc]

/-- Active block: the call is rejected with the remaining wait and the record
is returned unchanged. -/
theorem core_blocked (d : RateLimitData) (now : Nat)
    (hb : activeBlock d now = true) :
    checkRateLimitCore (some d) now =
      (⟨false, some (ceilSeconds ((d.blockedUntil.getD 0) - now))⟩, some d) := by
  simp [checkRateLimitCore, hb]

/-- No active block and the 60-second window elapsed: the window resets. -/
theorem core_reset (d : RateLimitData) (now : Nat)
    (hb : activeBlock d now = false)
    (hw : now - d.lastRequest > 60 * 1000) :
    checkRateLimitCore (some d) now = (⟨true, none⟩, some ⟨now, 1, none⟩) := by
  simp [checkRateLimitCore, hb, hw]

/-- No active block, window not elapsed, count at the ceiling: the block is
installed and the call rejected with a 300-second wait. -/
theorem core_block_install (d : RateLimitData) (now : Nat)
    (hb : activeBlock d now = false)
    (hw : ¬ now - d.lastRequest > 60 * 1000)
    (hc : ¬ d.requestCount < MAX_REQUESTS_PER_MINUTE) :
    checkRateLimitCore (some d) now =
      (⟨false, some 300⟩, some ⟨now, d.requestCount + 1, some (now + BLOCK_DURATION)⟩) := by
  simp [checkRateLimitCore, hb, hw, hc]
  norm_num [ceilSeconds, BLOCK_DURATION]

/-- A record with no `blockedUntil` field is never under an active block. -/
theorem noBlock_inactive (t c : Nat) (now : Nat) :
    activeBlock ⟨t, c, none⟩ now = false := rfl

/-- A block whose expiry has been reached no longer counts as active. -/
theorem elapsedBlock_inactive (d : RateLimitData) (b : Nat) (now : Nat)
    (hd : d.blockedUntil = some b) (h : b ≤ now) :
    activeBlock d now = false := by
  simp [activeBlock, hd]
  omega

/-- Preservation of the `requestCount` invariant by one call. -/
theorem rlInv_step (o : Option RateLimitData) (now : Nat) (h : rlInv o) :
    rlInv (checkRateLimitCore o now).2 := by
  match o with
  | none => simp [checkRateLimitCore, rlInv]
  | some d =>
    rcases d with ⟨last, c, b⟩
    simp only [rlInv] at h
    by_cases hb : activeBlock ⟨last, c, b⟩ now = true
    · rw [core_blocked _ _ hb]
      exact h
    · rw [Bool.not_eq_true] at hb
      by_cases hw : now - last > 60 * 1000
      · rw [core_reset _ _ hb hw]
        simp [rlInv]
      · by_cases hc : c < MAX_REQUESTS_PER_MINUTE
        · rw [core_allowed_inc _ _ hb hw hc]
          simp only [rlInv, MAX_REQUESTS_PER_MINUTE] at *
          omega
        · rw [core_block_install _ _ hb hw hc]
          simp only [rlInv, MAX_REQUESTS_PER_MINUTE] at *
          -- hc gives c at least 3. If c were 4 the invariant would put the
          -- record in the freshly-blocked shape, where a false activeBlock
          -- forces the 60-second window to have elapsed, contradicting hw;
          -- so c = 3 and the new count is 4 with the matching block.
          rcases h with ⟨h1, h2 | ⟨h2, h3⟩⟩
          · exact ⟨by omega, Or.inr ⟨by omega, trivial⟩⟩
          · exfalso
            simp [activeBlock, h3, BLOCK_DURATION] at hb
            simp [BLOCK_DURATION] at hb hw
            omega

/-- The `requestCount` invariant holds along any sequence of calls. -/
theorem runChecks_inv (ts : List Nat) (o : Option RateLimitData) (h : rlInv o) :
    rlInv (runChecks o ts) := by
  induction ts generalizing o with
  | nil => exact h
  | cons t ts ih =>
    exact ih _ (rlInv_step o t h)

/-!
## Claim theorems
-/

/-- C10: starting from no record, along every sequence of `checkRateLimit`
calls the persisted `requestCount` stays between 1 and 4 inclusive — it is
set to 1 on creation and on window reset, incremented while below 3, bumped
once to 4 when the block is installed, and never written again while the
block is active, so it cannot grow without bound. Every prefix of `ts` is
itself quantified over, so the bound holds at every intermediate state. -/
theorem requestCount_bounded (ts : List Nat) :
    countBounds (runChecks none ts) = true := by
  have h := runChecks_inv ts none trivial
  revert h
  cases runChecks none ts with
  | none => intro h; rfl
  | some d =>
    intro h
    simp only [rlInv] at h
    simp only [countBounds, Bool.and_eq_true, decide_eq_true_eq]
    omega

/-- C5: starting from no record, four calls each within 60 seconds of the
previous one are answered allowed, allowed, allowed, then not-allowed with
`waitTime = 300`; the fourth call installs `blockedUntil = now + 300000 ms`,
and a fifth call at or after that expiry is allowed again with the window
reset to `requestCount = 1`. -/
theorem checkRateLimit_ladder (t1 t2 t3 t4 t5 : Nat)
    (g12 : t2 - t1 ≤ 60 * 1000) (g23 : t3 - t2 ≤ 60 * 1000) (g34 : t4 - t3 ≤ 60 * 1000)
    (h5 : t4 + BLOCK_DURATION ≤ t5) :
    (checkSeq none [t1, t2, t3, t4, t5]).1 =
      [⟨true, none⟩, ⟨true, none⟩, ⟨true, none⟩, ⟨false, some 300⟩, ⟨true, none⟩] ∧
    checkSeq none [t1, t2, t3, t4, t5] =
      ([⟨true, none⟩, ⟨true, none⟩, ⟨true, none⟩, ⟨false, some 300⟩, ⟨true, none⟩],
        some ⟨t5, 1, none⟩) ∧
    (checkRateLimitCore (some ⟨t3, 3, none⟩) t4).2 = some ⟨t4, 4, some (t4 + BLOCK_DURATION)⟩ := by
  have e1 : checkRateLimitCore none t1 = (⟨true, none⟩, some ⟨t1, 1, none⟩) := core_first t1
  have e2 : checkRateLimitCore (some ⟨t1, 1, none⟩) t2 = (⟨true, none⟩, some ⟨t2, 2, none⟩) :=
    core_allowed_inc ⟨t1, 1, none⟩ t2 rfl (by simp; omega) (by norm_num [MAX_REQUESTS_PER_MINUTE])
  have e3 : checkRateLimitCore (some ⟨t2, 2, none⟩) t3 = (⟨true, none⟩, some ⟨t3, 3, none⟩) :=
    core_allowed_inc ⟨t2, 2, none⟩ t3 rfl (by simp; omega) (by norm_num [MAX_REQUESTS_PER_MINUTE])
  have e4 : checkRateLimitCore (some ⟨t3, 3, none⟩) t4 =
      (⟨false, some 300⟩, some ⟨t4, 4, some (t4 + BLOCK_DURATION)⟩) :=
    core_block_install ⟨t3, 3, none⟩ t4 rfl (by simp; omega) (by norm_num [MAX_REQUESTS_PER_MINUTE])
  have e5 : checkRateLimitCore (some ⟨t4, 4, some (t4 + BLOCK_DURATION)⟩) t5 =
      (⟨true, none⟩, some ⟨t5, 1, none⟩) :=
    core_reset ⟨t4, 4, some (t4 + BLOCK_DURATION)⟩ t5
      (elapsedBlock_inactive _ _ _ rfl h5) (by simp [BLOCK_DURATION] at h5 ⊢; omega)
  refine ⟨?_, ?_, ?_⟩
  · simp [checkSeq, e1, e2, e3, e4, e5]
  · simp [checkSeq, e1, e2, e3, e4, e5]
  · rw [e4]

/-- C5 witness: the ladder at the concrete times 0, 10 s, 20 s, 30 s and
330 s. -/
theorem checkRateLimit_ladder_w :
    (checkSeq none [0, 10000, 20000, 30000, 330000]).1 =
      [⟨true, none⟩, ⟨true, none⟩, ⟨true, none⟩, ⟨false, some 300⟩, ⟨true, none⟩] ∧
    checkSeq none [0, 10000, 20000, 30000, 330000] =
      ([⟨true, none⟩, ⟨true, none⟩, ⟨true, none⟩, ⟨false, some 300⟩, ⟨true, none⟩],
        some ⟨330000, 1, none⟩) ∧
    (checkRateLimitCore (some ⟨20000, 3, none⟩) 30000).2 =
      some ⟨30000, 4, some (30000 + BLOCK_DURATION)⟩ :=
  checkRateLimit_ladder 0 10000 20000 30000 330000
    (by decide) (by decide) (by decide) (by decide)

/-- C6 counterexample: a full `checkRateLimit` call rejected under an active
block (record blocked until 10000 ms, call at 5000 ms) performs no write at
all — the stored value is returned unchanged — refuting the claim that every
call mutates the persisted state. -/
theorem checkRateLimit_blocked_noWrite_cex :
    checkRateLimit false (some (.good ⟨1000, 4, some 10000⟩)) 5000 =
      (⟨false, some 5⟩, some (.good ⟨1000, 4, some 10000⟩), false) := by decide

/-- C6 (amended): a `checkRateLimit` call that reads a well-formed record
writes the store exactly when no active block is in force: a call rejected
because of an active block returns the record unchanged, and every other
call changes the stored value. -/
theorem checkRateLimitCore_write_characterization (stored : Option RateLimitData) (now : Nat) :
    (storedBlocked stored now = true → (checkRateLimitCore stored now).2 = stored) ∧
    (storedBlocked stored now = false → (checkRateLimitCore stored now).2 ≠ stored) := by
  match stored with
  | none =>
    refine ⟨fun h => by simp [storedBlocked] at h, fun _ => ?_⟩
    simp [checkRateLimitCore]
  | some d =>
    rcases d with ⟨last, c, b⟩
    constructor
    · intro h
      simp only [storedBlocked] at h
      rw [core_blocked _ _ h]
    · intro h
      simp only [storedBlocked] at h
      by_cases hw : now - last > 60 * 1000
      · rw [core_reset _ _ h hw]
        simp only [ne_eq, Option.some.injEq, RateLimitData.mk.injEq]
        intro ⟨h1, h2, h3⟩
        omega
      · by_cases hc : c < MAX_REQUESTS_PER_MINUTE
        · rw [core_allowed_inc _ _ h hw hc]
          simp only [ne_eq, Option.some.injEq, RateLimitData.mk.injEq]
          intro ⟨h1, h2, h3⟩
          omega
        · rw [core_block_install _ _ h hw hc]
          simp only [ne_eq, Option.some.injEq, RateLimitData.mk.injEq]
          intro ⟨h1, h2, h3⟩
          omega

/-- C7: when the persistent store is unreadable or its contents are corrupt,
`checkRateLimit` fails open — it answers `allowed: true` with no wait, logs
the failure, and leaves the store untouched; no exception escapes (the
embedding is a total function and every failure path reaches this return). -/
theorem checkRateLimit_failOpen (readFails : Bool) (stored : Option StoredValue) (now : Nat)
    (h : readFails = true ∨ stored = some .corrupt) :
    checkRateLimit readFails stored now = (⟨true, none⟩, stored, true) := by
  rcases h with h | h
  · subst h
    simp [checkRateLimit]
  · subst h
    cases readFails <;> simp [checkRateLimit]

/-- C7 witness: a corrupt stored value at time 12345 is answered allowed. -/
theorem checkRateLimit_failOpen_w :
    checkRateLimit false (some .corrupt) 12345 = (⟨true, none⟩, some .corrupt, true) :=
  checkRateLimit_failOpen false (some .corrupt) 12345 (Or.inr rfl)

/-- C4: `isValidOTP` returns true exactly on the strings made of six ASCII
decimal digits and nothing else (hence no leading or trailing whitespace),
and the listed example inputs evaluate as the claim states. -/
theorem isValidOTP_iff :
    (∀ code : String, isValidOTP code = true ↔ SixAsciiDigits code) ∧
    isValidOTP "123456" = true ∧ isValidOTP "12345" = false ∧
    isValidOTP "abcdef" = false ∧ isValidOTP "123 456" = false ∧
    isValidOTP "" = false := by
  refine ⟨fun code => ?_, by decide, by decide, by decide, by decide, by decide⟩
  simp [isValidOTP, SixAsciiDigits, isAsciiDigit, List.all_eq_true, Bool.and_eq_true,
    beq_iff_eq, decide_eq_true_eq]

/-- C2: whenever `handleVerify` contacts the remote service it passes exactly
the discriminator determined by the flow — signup for the registration flow,
recovery for the reset flow — and never the other one. The run is quantified
over every flag value, code and remote response, so in particular over any
attempt made after a prior failed attempt (the mapping reads nothing but the
flow). -/
theorem handleVerify_discriminator :
    flowDiscriminator .register = .signup ∧ flowDiscriminator .reset = .recovery ∧
    ∀ (verifying : Bool) (flow : FlowType) (otp : String)
      (remote : VerifyOtpResult) (sess : SessionResult),
      (handleVerify verifying flow otp remote sess).remoteCalled = true →
      (handleVerify verifying flow otp remote sess).usedType = some (flowDiscriminator flow) := by
  refine ⟨rfl, rfl, ?_⟩
  intro v flow otp remote sess h
  rcases remote with ⟨e, hu, hs⟩
  rcases sess with ⟨se, ss⟩
  cases v <;> cases e <;> cases se <;> cases hvo : isValidOTP otp <;>
    cases hu <;> cases hs <;> cases ss <;>
    simp_all [handleVerify, noVerifyEffects]

/-- C2 witness: a registration-flow verify at a concrete failing remote
response uses the signup discriminator. -/
theorem handleVerify_discriminator_w :
    (handleVerify false .register "123456" ⟨some "boom", false, false⟩
      ⟨none, false⟩).usedType = some (flowDiscriminator .register) :=
  handleVerify_discriminator.2.2 false .register "123456" ⟨some "boom", false, false⟩
    ⟨none, false⟩ (by decide)

/-- C3: when the remote verification returns success, `handleVerify` declares
`success` only after the follow-up session query has run and returned a
session; if the query runs and errors or yields no session, the outcome is
`sessionMissing`, the user is routed to the login screen, success is not
signalled, and the stored pending-verification data is not cleared. -/
theorem handleVerify_sessionGate (flow : FlowType) (otp : String)
    (remote : VerifyOtpResult) (sess : SessionResult)
    (hok : remote.errMsg = none) :
    ((handleVerify false flow otp remote sess).outcome = some .success →
      (handleVerify false flow otp remote sess).sessionQueried = true ∧
      sess.errMsg = none ∧ sess.hasSession = true) ∧
    ((handleVerify false flow otp remote sess).sessionQueried = true →
      (sess.errMsg ≠ none ∨ sess.hasSession = false) →
      (handleVerify false flow otp remote sess).outcome = some .sessionMissing ∧
      (handleVerify false flow otp remote sess).route = some .login ∧
      (handleVerify false flow otp remote sess).outcome ≠ some .success ∧
      (handleVerify false flow otp remote sess).otpCleared = false) := by
  rcases remote with ⟨e, hu, hs⟩
  rcases sess with ⟨se, ss⟩
  cases e <;> cases se <;> cases hvo : isValidOTP otp <;>
    cases hu <;> cases hs <;> cases ss <;>
    simp_all [handleVerify, noVerifyEffects]

/-- C3 witness: a successful remote verification whose follow-up session
query finds no session ends in `sessionMissing` with a route to login. -/
theorem handleVerify_sessionGate_w :
    ((handleVerify false .register "123456" ⟨none, true, true⟩ ⟨none, false⟩).outcome =
        some .success →
      (handleVerify false .register "123456" ⟨none, true, true⟩
          ⟨none, false⟩).sessionQueried = true ∧
      (none : Option String) = none ∧ false = true) ∧
    ((handleVerify false .register "123456" ⟨none, true, true⟩
        ⟨none, false⟩).sessionQueried = true →
      ((none : Option String) ≠ none ∨ false = false) →
      (handleVerify false .register "123456" ⟨none, true, true⟩ ⟨none, false⟩).outcome =
        some .sessionMissing ∧
      (handleVerify false .register "123456" ⟨none, true, true⟩ ⟨none, false⟩).route =
        some .login ∧
      (handleVerify false .register "123456" ⟨none, true, true⟩ ⟨none, false⟩).outcome ≠
        some .success ∧
      (handleVerify false .register "123456" ⟨none, true, true⟩
          ⟨none, false⟩).otpCleared = false) :=
  handleVerify_sessionGate .register "123456" ⟨none, true, true⟩ ⟨none, false⟩ rfl

/-- C8: a registration-flow verify of the code 000000 whose remote call fails
with the text Token has expired is classified `expiredCode` — the expired
branch is tested before the invalid/token branch, so it takes precedence even
though the text also contains the word token — and the stored
pending-verification data is cleared on no error outcome whatsoever. -/
theorem handleVerify_expired_scenario :
    ((handleVerify false .register "000000" ⟨some "Token has expired", false, false⟩
        ⟨none, false⟩).outcome = some .expiredCode ∧
      (handleVerify false .register "000000" ⟨some "Token has expired", false, false⟩
        ⟨none, false⟩).otpCleared = false) ∧
    ∀ (flow : FlowType) (otp msg : String) (hu hs : Bool) (sess : SessionResult),
      (handleVerify false flow otp ⟨some msg, hu, hs⟩ sess).otpCleared = false := by
  refine ⟨by decide, ?_⟩
  intro flow otp msg hu hs sess
  cases hvo : isValidOTP otp <;> simp [handleVerify, hvo]

/-- C9: verification is single-flight — a trigger arriving while the
in-progress flag is set returns immediately with no remote call and no
outcome, so a valid-code run together with a duplicate re-entrant trigger
performs exactly one remote verification call and surfaces exactly one
terminal outcome. -/
theorem handleVerify_singleFlight :
    (∀ (flow : FlowType) (otp : String) (remote : VerifyOtpResult) (sess : SessionResult),
      handleVerify true flow otp remote sess = noVerifyEffects) ∧
    ∀ (flow : FlowType) (otp : String) (remote : VerifyOtpResult) (sess : SessionResult),
      isValidOTP otp = true →
      remoteCallCount (handleVerify false flow otp remote sess) +
        remoteCallCount (handleVerify true flow otp remote sess) = 1 ∧
      outcomeCount (handleVerify false flow otp remote sess) +
        outcomeCount (handleVerify true flow otp remote sess) = 1 := by
  refine ⟨fun _ _ _ _ => rfl, ?_⟩
  intro flow otp remote sess hvo
  rcases remote with ⟨e, hu, hs⟩
  rcases sess with ⟨se, ss⟩
  cases e <;> cases se <;> cases hu <;> cases hs <;> cases ss <;>
    simp_all [handleVerify, noVerifyEffects, remoteCallCount, outcomeCount]

/-- C9 witness: a successful run plus a duplicate trigger at a concrete
input makes one remote call and one outcome in total. -/
theorem handleVerify_singleFlight_w :
    remoteCallCount (handleVerify false .register "123456" ⟨none, true, true⟩ ⟨none, true⟩) +
      remoteCallCount (handleVerify true .register "123456" ⟨none, true, true⟩ ⟨none, true⟩) = 1 ∧
    outcomeCount (handleVerify false .register "123456" ⟨none, true, true⟩ ⟨none, true⟩) +
      outcomeCount (handleVerify true .register "123456" ⟨none, true, true⟩ ⟨none, true⟩) = 1 :=
  handleVerify_singleFlight.2 .register "123456" ⟨none, true, true⟩ ⟨none, true⟩ (by decide)

/-- C1 counterexample: in the four-resends-in-ten-seconds scenario (remote
succeeding whenever reached) only the first call reaches the remote call
path — not the first three — and the fourth call returns silently with no
outcome at all, rather than surfacing a rate-limited outcome with a
300-second wait; `handleResend` contains no call to `checkRateLimit`. -/
theorem resend_fourCalls_cex :
    remoteReached resendScenario = 1 ∧
    resendScenario.get? 3 = some ⟨false, none, none⟩ := by decide

/-- C1 (amended): `handleResend` never consults the rate-limit guard; it is
gated solely by the `resendDisabled` cooldown flag — when the flag is set it
returns immediately with no remote call and no outcome. A successful resend
arms the 30-second cooldown; a 300-second cooldown with a rate-limited
outcome is armed only when the remote call itself reports rate limiting. Of
four resend calls within ten seconds with the remote succeeding, only the
first reaches the remote call path. -/
theorem handleResend_cooldown_gate :
    (∀ (s : CooldownState) (flow : FlowType) (err : Option String),
      s.resendDisabled = true → handleResend s flow err = (⟨false, none, none⟩, s)) ∧
    (∀ (s : CooldownState) (flow : FlowType),
      s.resendDisabled = false →
      handleResend s flow none =
        (⟨true, some (resendDispatch flow), some .codeSent⟩, ⟨true, 30⟩)) ∧
    (∀ (s : CooldownState) (flow : FlowType) (msg : String),
      s.resendDisabled = false →
      (strIncludes (toLowerStr msg) "rate limit" ||
        strIncludes (toLowerStr msg) "too many requests") = true →
      handleResend s flow (some msg) =
        (⟨true, some (resendDispatch flow), some .rateLimited⟩, ⟨true, 300⟩)) ∧
    remoteReached resendScenario = 1 := by
  refine ⟨?_, ?_, ?_, by decide⟩
  · intro s flow err h
    simp [handleResend, h]
  · intro s flow h
    simp [handleResend, h]
  · intro s flow msg h hmsg
    simp [handleResend, h, hmsg]

/-- C1 witness: a resend during an armed cooldown (flag set, 27 s left)
returns silently and changes nothing. -/
theorem handleResend_cooldown_gate_w :
    handleResend ⟨true, 27⟩ .register none = (⟨false, none, none⟩, ⟨true, 27⟩) :=
  handleResend_cooldown_gate.1 ⟨true, 27⟩ .register none rfl
